import Mathlib

/-!
Verification of the repository-acquisition logic of BugSmith
(`src/lib/git/cloneRepo.ts`).

The TypeScript function `cloneRepo` is shallowly embedded below.  External
behaviour (filesystem contents, outcomes of the spawned `git` processes) is
supplied through a `World` record; every observable action the function takes
(process spawns with their option objects, filesystem checks and writes, log
lines) is recorded in an effect trace, and the returned promise is modelled as
an `Except` value carrying either the thrown error message or the resolved
path.

String primitives used by the source (JavaScript `split`, `includes`,
`toLowerCase`, template literals) are re-implemented over `List Char` by
structural recursion so that all definitions evaluate inside `decide`.
-/

/-! ### JavaScript string primitives -/

/-- Embedding of the prefix test underlying JavaScript `includes`:
`listIsPre pat l` holds when `pat` is an initial segment of `l`. -/
def listIsPre : List Char → List Char → Bool
  | [], _ => true
  | _ :: _, [] => false
  | a :: as, b :: bs => a == b && listIsPre as bs

/-- Embedding of JavaScript `String.prototype.includes`:
`listHasSub pat l` holds when `pat` occurs contiguously inside `l`. -/
def listHasSub (pat : List Char) : List Char → Bool
  | [] => pat.isEmpty
  | c :: rest => listIsPre pat (c :: rest) || listHasSub pat rest

/-- JavaScript `s.includes(pat)`. -/
def strContains (s pat : String) : Bool := listHasSub pat.data s.data

/-- JavaScript `s.startsWith(pat)` (used to recognise clone commands). -/
def strStartsWith (s pat : String) : Bool := listIsPre pat.data s.data

/-- JavaScript `s.toLowerCase()` (ASCII range, which covers every marker the
source compares against). -/
def lowerStr (s : String) : String := String.mk (s.data.map Char.toLower)

/-- Worker for `splitSlash`, accumulating the current segment in reverse. -/
def splitSlashGo : List Char → List Char → List String
  | [], acc => [String.mk acc.reverse]
  | c :: rest, acc =>
      if c = '/' then String.mk acc.reverse :: splitSlashGo rest []
      else splitSlashGo rest (c :: acc)

/-- JavaScript `repo.split("/")` (line 18 of the source). -/
def splitSlash (s : String) : List String := splitSlashGo s.data []

/-- Escape of one character inside a JSON string literal (quotes and
backslashes; control characters do not occur in repository identifiers). -/
def jsonEscapeChar (c : Char) : List Char :=
  if c = '"' then ['\\', '"'] else if c = '\\' then ['\\', '\\'] else [c]

/-- Character-list worker for `jsonEscape`. -/
def jsonEscapeList : List Char → List Char
  | [] => []
  | c :: cs => jsonEscapeChar c ++ jsonEscapeList cs

/-- Body of a JSON string literal as produced by `JSON.stringify`. -/
def jsonEscape (s : String) : String := String.mk (jsonEscapeList s.data)

/-! ### Data model: environment, external world, effects -/

deriving instance DecidableEq for Except

/-- Value of `process.platform` / `os.platform()` as the source discriminates
it: Windows versus everything else. -/
inductive Platform where
  | win32
  | other
deriving DecidableEq

/-- The environment variables the source reads, plus the platform.  A missing
variable is `none`; JavaScript truthiness of a present variable is captured by
`truthy`. -/
structure Env where
  VERCEL : Option String
  AWS_LAMBDA_FUNCTION_NAME : Option String
  VERCEL_ENV : Option String
  TEMP : Option String
  TMP : Option String
  platform : Platform
deriving DecidableEq

/-- JavaScript truthiness of `process.env.X : string | undefined`. -/
def truthy : Option String → Bool
  | none => false
  | some s => !(decide (s = ""))

/-- Options record passed to `execAsync`: the source sets `maxBuffer` always
and `timeout` only at one call site, so both are optional. -/
structure ExecOpts where
  maxBuffer : Option Nat
  timeout : Option Nat
deriving DecidableEq

/-- Outcome of one `execAsync` call, supplied by the external world: either a
resolution with captured `stdout`/`stderr`, or a rejection carrying the
rejection's `message`. -/
inductive ExecOutcome where
  | ok (stdout stderr : String)
  | fail (message : String)
deriving DecidableEq

/-- True when the outcome is a rejection. -/
def ExecOutcome.isFail : ExecOutcome → Bool
  | ExecOutcome.ok _ _ => false
  | ExecOutcome.fail _ => true

/-- One observable action of `cloneRepo`.  `removeDir` is the vocabulary for
directory deletion (`fs.rmSync` and relatives); the source never performs it,
which is exactly what the fallback-policy claims need to be able to state. -/
inductive Effect where
  | exec (cmd : String) (opts : ExecOpts)
  | existsCheck (path : String)
  | mkdir (path : String)
  | writeFile (path : String) (contents : String)
  | removeDir (path : String)
  | logMsg (msg : String)
deriving DecidableEq

/-- True for process invocations. -/
def Effect.isExec : Effect → Bool
  | Effect.exec _ _ => true
  | _ => false

/-- True for directory deletions. -/
def Effect.isRemove : Effect → Bool
  | Effect.removeDir _ => true
  | _ => false

/-- True for invocations of `git clone`. -/
def Effect.isCloneExec : Effect → Bool
  | Effect.exec c _ => strStartsWith c "git clone "
  | _ => false

/-- True for filesystem actions (checks, creations, writes, deletions). -/
def Effect.isFsEffect : Effect → Bool
  | Effect.exec _ _ => false
  | Effect.logMsg _ => false
  | _ => true

/-- External-world inputs resolving the nondeterminism of one `cloneRepo`
call: the initial filesystem (the set of existing paths) and the outcome of
each of the at most four `execAsync` invocations, in source order. -/
structure World where
  fs : List String
  probeClassify : ExecOutcome
  pull : ExecOutcome
  probeClone : ExecOutcome
  clone : ExecOutcome
deriving DecidableEq

/-! ### Transcription of `cloneRepo` (src/lib/git/cloneRepo.ts) -/

/-- Lines 18-21: split on `/` and require exactly two truthy segments. -/
def parseIdentity (repo : String) : Option (String × String) :=
  match splitSlash repo with
  | [o, n] => if o = "" ∨ n = "" then none else some (o, n)
  | _ => none

/-- Message of the error thrown on line 20. -/
def invalidMsg (repo : String) : String :=
  "Invalid repository format: " ++ repo ++ ". Expected format: owner/repo"

/-- Lines 28-33: the serverless environment-variable heuristics. -/
def isServerlessEnv (e : Env) : Bool :=
  decide (e.VERCEL = some "1") || truthy e.VERCEL
    || truthy e.AWS_LAMBDA_FUNCTION_NAME
    || truthy e.VERCEL_ENV
    || (!(truthy e.TEMP) && !(truthy e.TMP)
          && !(decide (e.platform = Platform.win32)))

/-- Options of the classifier probe on line 39. -/
def probeOptsClassify : ExecOpts := ⟨some (1024 * 1024), some 2000⟩

/-- Lines 28-46: environment classification.  Returns the final value of
`isServerless` together with the effects performed (the probe spawn and the
fallback log line); the classifier is a total function, so a probe failure can
never escape as an error. -/
def classify (e : Env) (probe : ExecOutcome) : Bool × List Effect :=
  if isServerlessEnv e then (true, [])
  else
    match probe with
    | ExecOutcome.ok _ _ => (false, [Effect.exec "git --version" probeOptsClassify])
    | ExecOutcome.fail _ =>
        (true, [Effect.exec "git --version" probeOptsClassify,
                Effect.logMsg "[cloneRepo] Git not available, using serverless mode"])

/-- Path separator used by Node's `path.join` on the given platform. -/
def pathSep (e : Env) : String :=
  if e.platform = Platform.win32 then "\\" else "/"

/-- Node `path.join(a, b)` for the separator-free components the source joins. -/
def joinP (e : Env) (a b : String) : String := a ++ pathSep e ++ b

/-- Lines 73-75: OS-dependent temp directory of the non-serverless branch. -/
def tempBaseOf (e : Env) : String :=
  if e.platform = Platform.win32 then
    if truthy e.TEMP then e.TEMP.getD ""
    else if truthy e.TMP then e.TMP.getD ""
    else "C:\\temp"
  else "/tmp"

/-- Base directory of the cache: line 51 pins `/tmp` in the serverless branch,
lines 73-75 pick the OS temp directory otherwise. -/
def cacheBaseOf (e : Env) (degraded : Bool) : String :=
  if degraded then "/tmp" else tempBaseOf e

/-- The fixed application namespace directory (lines 52 and 78). -/
def bugsmithDirOf (e : Env) (degraded : Bool) : String :=
  joinP e (cacheBaseOf e degraded) "bugsmith"

/-- The per-repository cache directory (lines 57 and 84). -/
def targetDirOf (e : Env) (degraded : Bool) (o n : String) : String :=
  joinP e (bugsmithDirOf e degraded) (o ++ "-" ++ n)

/-- `if (!existsSync(p)) mkdirSync(p, recursive)` (lines 53-55, 58-60, 79-81):
returns the updated filesystem and the effects performed. -/
def ensureDir (p : String) (fs : List String) : List String × List Effect :=
  if p ∈ fs then (fs, [Effect.existsCheck p])
  else (p :: fs, [Effect.existsCheck p, Effect.mkdir p])

/-- Cache-path resolution: the namespace directory is always ensured; the
serverless branch (lines 57-60) additionally ensures the per-repository
directory, while the real branch (line 84) only computes its name.  Returns
the resolved path, the updated filesystem and the effect trace. -/
def resolveCachePath (e : Env) (degraded : Bool) (o n : String)
    (fs : List String) : String × List String × List Effect :=
  if degraded then
    (targetDirOf e degraded o n,
     (ensureDir (targetDirOf e degraded o n) (ensureDir (bugsmithDirOf e degraded) fs).1).1,
     (ensureDir (bugsmithDirOf e degraded) fs).2
       ++ (ensureDir (targetDirOf e degraded o n) (ensureDir (bugsmithDirOf e degraded) fs).1).2)
  else
    (targetDirOf e degraded o n,
     (ensureDir (bugsmithDirOf e degraded) fs).1,
     (ensureDir (bugsmithDirOf e degraded) fs).2)

/-- Contents written to the marker file on lines 63-66
(`JSON.stringify({ repo, cloned: false, serverless: true })`). -/
def serverlessMarkerBody (repo : String) : String :=
  "\x7b\"repo\":\"" ++ jsonEscape repo ++ "\",\"cloned\":false,\"serverless\":true\x7d"

/-- Lines 48-70: the serverless (degraded) branch. -/
def acquireServerless (e : Env) (fs : List String) (repo o n : String) :
    Except String String × List Effect :=
  (Except.ok (resolveCachePath e true o n fs).1,
   (resolveCachePath e true o n fs).2.2
     ++ [Effect.writeFile (joinP e (resolveCachePath e true o n fs).1 ".bugsmith-serverless")
           (serverlessMarkerBody repo),
         Effect.logMsg ("Serverless mode: Created directory structure for " ++ repo
           ++ " at " ++ (resolveCachePath e true o n fs).1)])

/-- Options of the pull invocation on lines 90-92 (no timeout in the source). -/
def pullOpts : ExecOpts := ⟨some (10 * 1024 * 1024), none⟩

/-- Options of the pre-clone probe on line 108 (no timeout in the source). -/
def probeOptsClone : ExecOpts := ⟨some (1024 * 1024), none⟩

/-- Options of the clone invocation on lines 113-118 (no timeout in the
source). -/
def cloneOpts : ExecOpts := ⟨some (10 * 1024 * 1024), none⟩

/-- The remote URL built on line 103. -/
def repoUrlOf (o n : String) : String :=
  "https://github.com/" ++ o ++ "/" ++ n ++ ".git"

/-- The pull command string of line 90. -/
def pullCmdOf (target : String) : String :=
  "git -C \"" ++ target ++ "\" pull"

/-- The clone command string of line 114. -/
def cloneCmdOf (o n target : String) : String :=
  "git clone " ++ repoUrlOf o n ++ " \"" ++ target ++ "\""

/-- The fixed error indicators of line 123. -/
def errorIndicators : List String :=
  ["fatal:", "error:", "Permission denied", "not found"]

/-- Lines 121-124: the diagnostic-stream failure heuristic, exactly the
condition under which line 125 throws.  `stderr` must be truthy, contain
neither progress marker (case-sensitively), and contain some error indicator
case-insensitively. -/
def classifyDiagnosticText (stderr : String) : Bool :=
  !(decide (stderr = "")) && !(strContains stderr "Cloning into")
    && !(strContains stderr "remote:")
    && errorIndicators.any (fun ind => strContains (lowerStr stderr) (lowerStr ind))

/-- Message of the errors thrown on lines 110 and 131. -/
def gitMissingMsg : String :=
  "Git is not installed or not in PATH. Please install Git to use this feature."

/-- Lines 128-133: the catch block that rewrites errors which look like a
missing executable (case-sensitive `includes` checks on the message). -/
def transformCloneErr (m : String) : String :=
  if strContains m "git" && (strContains m "not found" || strContains m "not in PATH")
  then gitMissingMsg else m

/-- Lines 103-137: the clone attempt.  `t` is the trace accumulated so far;
the probe of line 108 runs first, then (if the probe resolved) the clone of
line 113, whose stderr is classified by `classifyDiagnosticText`.  Every error
thrown inside the `try` of line 105 passes through `transformCloneErr`. -/
def cloneAttempt (w : World) (repo o n target : String) (t : List Effect) :
    Except String String × List Effect :=
  match w.probeClone with
  | ExecOutcome.fail _ =>
      (Except.error (transformCloneErr gitMissingMsg),
       t ++ [Effect.exec "git --version" probeOptsClone])
  | ExecOutcome.ok _ _ =>
      match w.clone with
      | ExecOutcome.fail m =>
          (Except.error (transformCloneErr m),
           t ++ [Effect.exec "git --version" probeOptsClone,
                 Effect.exec (cloneCmdOf o n target) cloneOpts])
      | ExecOutcome.ok _ stderr =>
          if classifyDiagnosticText stderr then
            (Except.error (transformCloneErr ("Git clone error: " ++ stderr)),
             t ++ [Effect.exec "git --version" probeOptsClone,
                   Effect.exec (cloneCmdOf o n target) cloneOpts])
          else
            (Except.ok target,
             t ++ [Effect.exec "git --version" probeOptsClone,
                   Effect.exec (cloneCmdOf o n target) cloneOpts,
                   Effect.logMsg ("Successfully cloned repository " ++ repo
                     ++ " to " ++ target)])

/-- Lines 72-137: the non-serverless branch.  Resolves the cache path, checks
for `.git` metadata (line 87); if present, pulls (lines 89-100) and on pull
failure logs a warning and falls through — without any deletion — to the clone
attempt; if absent, clones directly. -/
def acquireReal (e : Env) (w : World) (repo o n : String) :
    Except String String × List Effect :=
  if joinP e (targetDirOf e false o n) ".git" ∈ (resolveCachePath e false o n w.fs).2.1 then
    match w.pull with
    | ExecOutcome.ok _ _ =>
        (Except.ok (targetDirOf e false o n),
         (resolveCachePath e false o n w.fs).2.2
           ++ [Effect.existsCheck (joinP e (targetDirOf e false o n) ".git"),
               Effect.exec (pullCmdOf (targetDirOf e false o n)) pullOpts,
               Effect.logMsg ("Updated existing repository " ++ repo)])
    | ExecOutcome.fail m =>
        cloneAttempt w repo o n (targetDirOf e false o n)
          ((resolveCachePath e false o n w.fs).2.2
            ++ [Effect.existsCheck (joinP e (targetDirOf e false o n) ".git"),
                Effect.exec (pullCmdOf (targetDirOf e false o n)) pullOpts,
                Effect.logMsg ("Failed to update repository, will re-clone: " ++ m)])
  else
    cloneAttempt w repo o n (targetDirOf e false o n)
      ((resolveCachePath e false o n w.fs).2.2
        ++ [Effect.existsCheck (joinP e (targetDirOf e false o n) ".git")])

/-- Lines 16-137: the body of the outer `try`. -/
def cloneRepoBody (repo : String) (e : Env) (w : World) :
    Except String String × List Effect :=
  match parseIdentity repo with
  | none => (Except.error (invalidMsg repo), [])
  | some (o, n) =>
      if (classify e w.probeClassify).1 then
        ((acquireServerless e w.fs repo o n).1,
         (classify e w.probeClassify).2 ++ (acquireServerless e w.fs repo o n).2)
      else
        ((acquireReal e w repo o n).1,
         (classify e w.probeClassify).2 ++ (acquireReal e w repo o n).2)

/-- Lines 140-142: the wrapping applied by the outer catch block. -/
def wrapMsg (repo m : String) : String :=
  "Failed to clone repository " ++ repo ++ ": "
    ++ (if m = "" then "Unknown error" else m)

/-- The whole of `cloneRepo` (lines 15-144): the outer catch logs the error
and re-throws it wrapped by `wrapMsg`. -/
def cloneRepo (repo : String) (e : Env) (w : World) :
    Except String String × List Effect :=
  match cloneRepoBody repo e w with
  | (Except.error m, t) =>
      (Except.error (wrapMsg repo m),
       t ++ [Effect.logMsg ("Error cloning repository " ++ repo ++ ": " ++ m)])
  | (Except.ok p, t) => (Except.ok p, t)

/-! ### Concrete environments and worlds used by witnesses -/

/-- Environment with the serverless platform marker set truthy. -/
def envSls : Env := ⟨some "1", none, none, none, none, Platform.other⟩

/-- Non-Windows environment that trips none of the serverless heuristics. -/
def envReal : Env := ⟨none, none, none, some "/tmp", none, Platform.other⟩

/-- An `execAsync` resolution with empty captured streams. -/
def okOut : ExecOutcome := ExecOutcome.ok "" ""

/-- World of a fully successful fresh clone. -/
def wHappy : World :=
  ⟨[], okOut, okOut, okOut, ExecOutcome.ok "" "Cloning into 'Hello-World'..."⟩

/-- World whose clone writes both `remote:` and `fatal:` to stderr. -/
def wFatalRemote : World :=
  ⟨[], okOut, okOut, okOut, ExecOutcome.ok "" "remote: fatal: could not read"⟩

/-- World whose clone writes a bare `fatal:` diagnostic. -/
def wFatalClean : World :=
  ⟨[], okOut, okOut, okOut, ExecOutcome.ok "" "fatal: unable to access the remote"⟩

/-- World where the pre-clone probe rejects (no git executable). -/
def wNoGit : World :=
  ⟨[], okOut, okOut, ExecOutcome.fail "spawn git ENOENT", okOut⟩

/-- World with an existing checkout whose pull rejects. -/
def wPullFail : World :=
  ⟨["/tmp/bugsmith", "/tmp/bugsmith/octocat-Hello-World/.git"],
   okOut, ExecOutcome.fail "cannot fast-forward", okOut,
   ExecOutcome.ok "" "Cloning into 'Hello-World'..."⟩

/-! ### String lemmas -/

theorem strdata_append (a b : String) : (a ++ b).data = a.data ++ b.data := by
  cases a; cases b; rfl

theorem listIsPre_append_self (l r : List Char) : listIsPre l (l ++ r) = true := by
  induction l with
  | nil => rfl
  | cons a as ih => simp [listIsPre, ih]

theorem listIsPre_nil_iff (p : List Char) : listIsPre p [] = true ↔ p = [] := by
  cases p <;> simp [listIsPre]

theorem listHasSub_of_isPre (p l : List Char) (h : listIsPre p l = true) :
    listHasSub p l = true := by
  cases l with
  | nil =>
      have : p = [] := (listIsPre_nil_iff p).1 h
      simp [listHasSub, this]
  | cons c rest => simp [listHasSub, h]

theorem listHasSub_cons (p : List Char) (c : Char) (l : List Char)
    (h : listHasSub p l = true) : listHasSub p (c :: l) = true := by
  simp [listHasSub, h]

theorem listHasSub_append_left (l₁ p l : List Char) (h : listHasSub p l = true) :
    listHasSub p (l₁ ++ l) = true := by
  induction l₁ with
  | nil => simpa using h
  | cons c cs ih => simpa using listHasSub_cons p c (cs ++ l) ih

theorem listHasSub_self_append (p r : List Char) : listHasSub p (p ++ r) = true :=
  listHasSub_of_isPre _ _ (listIsPre_append_self p r)

/-- A string contains any sandwiched middle piece. -/
theorem strContains_sandwich (x m y : String) : strContains (x ++ m ++ y) m = true := by
  unfold strContains
  rw [strdata_append, strdata_append, List.append_assoc]
  exact listHasSub_append_left _ _ _ (listHasSub_self_append _ _)

theorem listIsPre_map (f : Char → Char) (p q : List Char)
    (h : listIsPre p q = true) : listIsPre (p.map f) (q.map f) = true := by
  induction p generalizing q with
  | nil => rfl
  | cons a as ih =>
      cases q with
      | nil => exact absurd h (by simp [listIsPre])
      | cons b bs =>
          simp only [listIsPre, Bool.and_eq_true, beq_iff_eq] at h
          simp [List.map, listIsPre, h.1, ih bs h.2]

theorem listHasSub_map (f : Char → Char) (p l : List Char)
    (h : listHasSub p l = true) : listHasSub (p.map f) (l.map f) = true := by
  induction l with
  | nil =>
      simp [listHasSub] at h
      simp [listHasSub, h]
  | cons c rest ih =>
      simp only [listHasSub, Bool.or_eq_true] at h
      rcases h with h | h
      · exact listHasSub_of_isPre _ _ (listIsPre_map f p (c :: rest) h)
      · exact listHasSub_cons _ _ _ (ih h)

/-- Case-insensitive containment follows from case-sensitive containment when
the pattern is lowercase-invariant. -/
theorem strContains_lower (s pat : String) (hpat : pat.data.map Char.toLower = pat.data)
    (h : strContains s pat = true) : strContains (lowerStr s) (lowerStr pat) = true := by
  unfold strContains lowerStr at *
  simpa [hpat] using listHasSub_map Char.toLower pat.data s.data h

theorem contains_ne_empty (s pat : String) (hpat : pat ≠ "")
    (h : strContains s pat = true) : s ≠ "" := by
  intro hs
  subst hs
  unfold strContains at h
  simp [listHasSub, List.isEmpty_iff] at h
  exact hpat (by cases pat with | mk l => simp at h; simp [h])

/-! ### Classifier lemmas -/

theorem classify_fst (e : Env) (p : ExecOutcome) :
    (classify e p).1 = (isServerlessEnv e || p.isFail) := by
  cases hs : isServerlessEnv e <;> cases p <;>
    simp [classify, hs, ExecOutcome.isFail]

theorem classify_snd_of_heuristics (e : Env) (p : ExecOutcome)
    (hs : isServerlessEnv e = true) : (classify e p).2 = [] := by
  simp [classify, hs]

theorem classify_snd_probe (e : Env) (p : ExecOutcome)
    (hs : isServerlessEnv e = false) :
    (classify e p).2 =
      Effect.exec "git --version" probeOptsClassify ::
        (if p.isFail then
          [Effect.logMsg "[cloneRepo] Git not available, using serverless mode"]
         else []) := by
  cases p <;> simp [classify, hs, ExecOutcome.isFail]

/-! ### Resolver lemmas -/

theorem resolve_fst (e : Env) (d : Bool) (o n : String) (fs : List String) :
    (resolveCachePath e d o n fs).1 = targetDirOf e d o n := by
  unfold resolveCachePath; split <;> rfl

theorem ensureDir_mem_self (p : String) (fs : List String) :
    p ∈ (ensureDir p fs).1 := by
  unfold ensureDir; split
  · assumption
  · exact List.mem_cons_self p fs

theorem ensureDir_mem_of (p q : String) (fs : List String) (h : q ∈ fs) :
    q ∈ (ensureDir p fs).1 := by
  unfold ensureDir; split
  · exact h
  · exact List.mem_cons_of_mem p h

theorem ensureDir_of_mem (p : String) (fs : List String) (h : p ∈ fs) :
    ensureDir p fs = (fs, [Effect.existsCheck p]) := by
  simp [ensureDir, h]

theorem ensureDir_all (P : Effect → Bool)
    (hc : ∀ q, P (Effect.existsCheck q) = true)
    (hm : ∀ q, P (Effect.mkdir q) = true) (p : String) (fs : List String) :
    ((ensureDir p fs).2).all P = true := by
  unfold ensureDir; split <;> simp [hc, hm]

theorem resolve_all (P : Effect → Bool)
    (hc : ∀ q, P (Effect.existsCheck q) = true)
    (hm : ∀ q, P (Effect.mkdir q) = true)
    (e : Env) (d : Bool) (o n : String) (fs : List String) :
    ((resolveCachePath e d o n fs).2.2).all P = true := by
  unfold resolveCachePath
  split <;> simp [List.all_append, ensureDir_all P hc hm]

theorem resolve_mem_of (e : Env) (d : Bool) (o n q : String) (fs : List String)
    (h : q ∈ fs) : q ∈ (resolveCachePath e d o n fs).2.1 := by
  unfold resolveCachePath
  split
  · exact ensureDir_mem_of _ _ _ (ensureDir_mem_of _ _ _ h)
  · exact ensureDir_mem_of _ _ _ h

/-! ### Trace-shape machinery -/

/-- Shape invariant of every recorded effect: a spawned process carries one of
the four option records appearing in the source, and no directory deletion is
ever performed. -/
def effWellFormed : Effect → Bool
  | Effect.exec _ o =>
      decide (o = probeOptsClassify ∨ o = pullOpts ∨ o = probeOptsClone ∨ o = cloneOpts)
  | Effect.removeDir _ => false
  | _ => true

@[simp] theorem effWF_existsCheck (q : String) :
    effWellFormed (Effect.existsCheck q) = true := rfl

@[simp] theorem effWF_mkdir (q : String) :
    effWellFormed (Effect.mkdir q) = true := rfl

@[simp] theorem effWF_writeFile (q c : String) :
    effWellFormed (Effect.writeFile q c) = true := rfl

@[simp] theorem effWF_logMsg (m : String) :
    effWellFormed (Effect.logMsg m) = true := rfl

@[simp] theorem effWF_exec_classify (c : String) :
    effWellFormed (Effect.exec c probeOptsClassify) = true := by
  simp [effWellFormed]

@[simp] theorem effWF_exec_pull (c : String) :
    effWellFormed (Effect.exec c pullOpts) = true := by
  simp [effWellFormed]

@[simp] theorem effWF_exec_probeClone (c : String) :
    effWellFormed (Effect.exec c probeOptsClone) = true := by
  simp [effWellFormed]

@[simp] theorem effWF_exec_clone (c : String) :
    effWellFormed (Effect.exec c cloneOpts) = true := by
  simp [effWellFormed]

theorem classify_all_wf (e : Env) (p : ExecOutcome) :
    ((classify e p).2).all effWellFormed = true := by
  cases hs : isServerlessEnv e <;> cases p <;> simp [classify, hs]

theorem cloneAttempt_all_wf (w : World) (repo o n target : String)
    (t : List Effect) (h : t.all effWellFormed = true) :
    ((cloneAttempt w repo o n target t).2).all effWellFormed = true := by
  unfold cloneAttempt
  split
  · simp [List.all_append, h]
  · split
    · simp [List.all_append, h]
    · split <;> simp [List.all_append, h]

theorem acquireReal_all_wf (e : Env) (w : World) (repo o n : String) :
    ((acquireReal e w repo o n).2).all effWellFormed = true := by
  have hres := resolve_all effWellFormed (fun q => rfl) (fun q => rfl) e false o n w.fs
  unfold acquireReal
  split
  · cases w.pull with
    | ok s1 s2 => simp [List.all_append, hres]
    | fail m =>
        exact cloneAttempt_all_wf w repo o n _ _ (by simp [List.all_append, hres])
  · exact cloneAttempt_all_wf w repo o n _ _ (by simp [List.all_append, hres])

theorem acquireServerless_all (P : Effect → Bool)
    (hc : ∀ q, P (Effect.existsCheck q) = true)
    (hm : ∀ q, P (Effect.mkdir q) = true)
    (hw : ∀ q c, P (Effect.writeFile q c) = true)
    (hl : ∀ m, P (Effect.logMsg m) = true)
    (e : Env) (fs : List String) (repo o n : String) :
    ((acquireServerless e fs repo o n).2).all P = true := by
  unfold acquireServerless
  simp [List.all_append, resolve_all P hc hm, hw, hl]

theorem cloneRepoBody_all_wf (repo : String) (e : Env) (w : World) :
    ((cloneRepoBody repo e w).2).all effWellFormed = true := by
  unfold cloneRepoBody
  split
  · rfl
  · split
    · simp [List.all_append, classify_all_wf,
        acquireServerless_all effWellFormed (fun q => rfl) (fun q => rfl)
          (fun q c => rfl) (fun m => rfl)]
    · simp [List.all_append, classify_all_wf, acquireReal_all_wf]

theorem cloneRepo_all_wf (repo : String) (e : Env) (w : World) :
    ((cloneRepo repo e w).2).all effWellFormed = true := by
  have hb := cloneRepoBody_all_wf repo e w
  unfold cloneRepo
  cases hbody : cloneRepoBody repo e w with
  | mk res t =>
      rw [hbody] at hb
      cases res <;> simp_all [List.all_append]

theorem cloneRepo_wf_mem (repo : String) (e : Env) (w : World) :
    ∀ eff ∈ (cloneRepo repo e w).2, effWellFormed eff = true := by
  have h := cloneRepo_all_wf repo e w
  rw [List.all_eq_true] at h
  exact h

/-! ### Shape lemmas for the acquisition engine -/

theorem body_of_invalid (repo : String) (e : Env) (w : World)
    (h : parseIdentity repo = none) :
    cloneRepoBody repo e w = (Except.error (invalidMsg repo), []) := by
  simp [cloneRepoBody, h]

theorem body_of_degraded (repo o n : String) (e : Env) (w : World)
    (hp : parseIdentity repo = some (o, n))
    (hd : (classify e w.probeClassify).1 = true) :
    cloneRepoBody repo e w =
      ((acquireServerless e w.fs repo o n).1,
       (classify e w.probeClassify).2 ++ (acquireServerless e w.fs repo o n).2) := by
  simp [cloneRepoBody, hp, hd]

theorem body_of_real (repo o n : String) (e : Env) (w : World)
    (hp : parseIdentity repo = some (o, n))
    (hd : (classify e w.probeClassify).1 = false) :
    cloneRepoBody repo e w =
      ((acquireReal e w repo o n).1,
       (classify e w.probeClassify).2 ++ (acquireReal e w repo o n).2) := by
  simp [cloneRepoBody, hp, hd]

theorem cloneRepo_of_ok (repo p : String) (e : Env) (w : World)
    (h : (cloneRepoBody repo e w).1 = Except.ok p) :
    cloneRepo repo e w = (Except.ok p, (cloneRepoBody repo e w).2) := by
  unfold cloneRepo
  cases hb : cloneRepoBody repo e w with
  | mk res t =>
      rw [hb] at h
      cases res with
      | error m => exact absurd h (by simp)
      | ok q => simp at h; simp [h]

theorem cloneRepo_of_error (repo m : String) (e : Env) (w : World)
    (h : (cloneRepoBody repo e w).1 = Except.error m) :
    cloneRepo repo e w =
      (Except.error (wrapMsg repo m),
       (cloneRepoBody repo e w).2
         ++ [Effect.logMsg ("Error cloning repository " ++ repo ++ ": " ++ m)]) := by
  unfold cloneRepo
  cases hb : cloneRepoBody repo e w with
  | mk res t =>
      rw [hb] at h
      cases res with
      | error q => simp at h; simp [h]
      | ok q => exact absurd h (by simp)

theorem cloneRepo_error_inv (repo m : String) (e : Env) (w : World)
    (h : (cloneRepo repo e w).1 = Except.error m) :
    ∃ cause, (cloneRepoBody repo e w).1 = Except.error cause
      ∧ m = wrapMsg repo cause := by
  unfold cloneRepo at h
  cases hb : cloneRepoBody repo e w with
  | mk res t =>
      rw [hb] at h
      cases res with
      | error q => exact ⟨q, rfl, by simpa using h.symm⟩
      | ok q => exact absurd h (by simp)

theorem acquireReal_nogit (e : Env) (w : World) (repo o n : String)
    (hng : joinP e (targetDirOf e false o n) ".git"
      ∉ (resolveCachePath e false o n w.fs).2.1) :
    acquireReal e w repo o n =
      cloneAttempt w repo o n (targetDirOf e false o n)
        ((resolveCachePath e false o n w.fs).2.2
          ++ [Effect.existsCheck (joinP e (targetDirOf e false o n) ".git")]) := by
  simp [acquireReal, hng]

theorem acquireReal_pullfail (e : Env) (w : World) (repo o n m : String)
    (hgit : joinP e (targetDirOf e false o n) ".git"
      ∈ (resolveCachePath e false o n w.fs).2.1)
    (hpull : w.pull = ExecOutcome.fail m) :
    acquireReal e w repo o n =
      cloneAttempt w repo o n (targetDirOf e false o n)
        ((resolveCachePath e false o n w.fs).2.2
          ++ [Effect.existsCheck (joinP e (targetDirOf e false o n) ".git"),
              Effect.exec (pullCmdOf (targetDirOf e false o n)) pullOpts,
              Effect.logMsg ("Failed to update repository, will re-clone: " ++ m)]) := by
  simp [acquireReal, hgit, hpull]

theorem acquireReal_pullok (e : Env) (w : World) (repo o n s1 s2 : String)
    (hgit : joinP e (targetDirOf e false o n) ".git"
      ∈ (resolveCachePath e false o n w.fs).2.1)
    (hpull : w.pull = ExecOutcome.ok s1 s2) :
    acquireReal e w repo o n =
      (Except.ok (targetDirOf e false o n),
       (resolveCachePath e false o n w.fs).2.2
         ++ [Effect.existsCheck (joinP e (targetDirOf e false o n) ".git"),
             Effect.exec (pullCmdOf (targetDirOf e false o n)) pullOpts,
             Effect.logMsg ("Updated existing repository " ++ repo)]) := by
  simp [acquireReal, hgit, hpull]

theorem cloneAttempt_probe_fail (w : World) (repo o n target msg : String)
    (t : List Effect) (hpc : w.probeClone = ExecOutcome.fail msg) :
    cloneAttempt w repo o n target t =
      (Except.error (transformCloneErr gitMissingMsg),
       t ++ [Effect.exec "git --version" probeOptsClone]) := by
  simp [cloneAttempt, hpc]

theorem cloneAttempt_clone_fail (w : World) (repo o n target a b m : String)
    (t : List Effect) (hpc : w.probeClone = ExecOutcome.ok a b)
    (hcl : w.clone = ExecOutcome.fail m) :
    cloneAttempt w repo o n target t =
      (Except.error (transformCloneErr m),
       t ++ [Effect.exec "git --version" probeOptsClone,
             Effect.exec (cloneCmdOf o n target) cloneOpts]) := by
  simp [cloneAttempt, hpc, hcl]

theorem cloneAttempt_diag_bad (w : World) (repo o n target a b s stderr : String)
    (t : List Effect) (hpc : w.probeClone = ExecOutcome.ok a b)
    (hcl : w.clone = ExecOutcome.ok s stderr)
    (hbad : classifyDiagnosticText stderr = true) :
    cloneAttempt w repo o n target t =
      (Except.error (transformCloneErr ("Git clone error: " ++ stderr)),
       t ++ [Effect.exec "git --version" probeOptsClone,
             Effect.exec (cloneCmdOf o n target) cloneOpts]) := by
  simp [cloneAttempt, hpc, hcl, hbad]

theorem cloneAttempt_diag_good (w : World) (repo o n target a b s stderr : String)
    (t : List Effect) (hpc : w.probeClone = ExecOutcome.ok a b)
    (hcl : w.clone = ExecOutcome.ok s stderr)
    (hgood : classifyDiagnosticText stderr = false) :
    cloneAttempt w repo o n target t =
      (Except.ok target,
       t ++ [Effect.exec "git --version" probeOptsClone,
             Effect.exec (cloneCmdOf o n target) cloneOpts,
             Effect.logMsg ("Successfully cloned repository " ++ repo
               ++ " to " ++ target)]) := by
  simp [cloneAttempt, hpc, hcl, hgood]

theorem cloneAttempt_fst_indep (w : World) (repo o n target : String)
    (t t' : List Effect) :
    (cloneAttempt w repo o n target t).1 = (cloneAttempt w repo o n target t').1 := by
  unfold cloneAttempt
  split
  · rfl
  · split
    · rfl
    · split <;> rfl

theorem transform_gitMissing : transformCloneErr gitMissingMsg = gitMissingMsg := by
  decide

/-! ### Further helper lemmas -/

/-- True for directory creations. -/
def Effect.isMkdir : Effect → Bool
  | Effect.mkdir _ => true
  | _ => false

theorem countP_eq_zero_of_all_not (l : List Effect) (p : Effect → Bool)
    (h : l.all (fun x => !(p x)) = true) : l.countP p = 0 := by
  rw [List.countP_eq_zero]
  rw [List.all_eq_true] at h
  intro a ha hpa
  have := h a ha
  rw [hpa] at this
  exact absurd this (by decide)

theorem strAppend_assoc (a b c : String) : a ++ b ++ c = a ++ (b ++ c) := by
  cases a with
  | mk l1 =>
      cases b with
      | mk l2 =>
          cases c with
          | mk l3 =>
              show String.mk (l1 ++ l2 ++ l3) = String.mk (l1 ++ (l2 ++ l3))
              rw [List.append_assoc]

theorem strContains_suffix (x m : String) : strContains (x ++ m) m = true := by
  unfold strContains
  rw [strdata_append]
  refine listHasSub_append_left _ _ _ ?_
  have h := listHasSub_self_append m.data []
  rwa [List.append_nil] at h

theorem classify_all (P : Effect → Bool)
    (hx : P (Effect.exec "git --version" probeOptsClassify) = true)
    (hl : ∀ m, P (Effect.logMsg m) = true) (e : Env) (p : ExecOutcome) :
    ((classify e p).2).all P = true := by
  cases hs : isServerlessEnv e <;> cases p <;> simp [classify, hs, hx, hl]

/-! ### C3: identity parsing -/

/-- C3: for every input string, identity parsing succeeds with owner and name
equal to the two segments exactly when splitting on `/` yields exactly two
non-empty segments; on any other input the call fails with the
invalid-identity error (wrapped by the outer handler) and performs no
filesystem or subprocess activity. -/
theorem C3_identity_parsing (repo : String) (e : Env) (w : World) :
    (∀ o n, parseIdentity repo = some (o, n) ↔
        splitSlash repo = [o, n] ∧ o ≠ "" ∧ n ≠ "")
  ∧ (parseIdentity repo = none →
      (cloneRepo repo e w).1 = Except.error (wrapMsg repo (invalidMsg repo))
      ∧ ∀ eff ∈ (cloneRepo repo e w).2,
          eff.isExec = false ∧ eff.isFsEffect = false) := by
  constructor
  · intro o n
    constructor
    · intro h
      unfold parseIdentity at h
      rcases hs : splitSlash repo with _ | ⟨a, _ | ⟨b, _ | ⟨c, l⟩⟩⟩ <;>
        rw [hs] at h <;> simp at h
      rcases h with ⟨hne, ha, hb⟩
      refine ⟨?_, ?_, ?_⟩
      · rw [ha, hb]
      · rw [← ha]; exact hne.1
      · rw [← hb]; exact hne.2
    · rintro ⟨hsp, ho, hn⟩
      unfold parseIdentity
      rw [hsp]
      simp [ho, hn]
  · intro h
    have hb := body_of_invalid repo e w h
    have hcr := cloneRepo_of_error repo (invalidMsg repo) e w (by rw [hb])
    rw [hcr, hb]
    refine ⟨rfl, ?_⟩
    intro eff hmem
    simp at hmem
    rw [hmem]
    exact ⟨rfl, rfl⟩

/-- C3 witness: `"a/b/c"` fails identity parsing and the call errors without
any filesystem or process effect. -/
theorem C3_identity_parsing_witness :
    parseIdentity "a/b/c" = none
  ∧ (cloneRepo "a/b/c" envSls wHappy).1
      = Except.error (wrapMsg "a/b/c" (invalidMsg "a/b/c")) := by
  refine ⟨by decide, ?_⟩
  exact ((C3_identity_parsing "a/b/c" envSls wHappy).2 (by decide)).1

/-! ### C4: diagnostic-text classification -/

/-- C4: the clone's stderr is classified as a failure exactly when it
contains some recognized error marker case-insensitively and contains neither
progress marker `Cloning into` nor `remote:`. -/
theorem C4_diagnostic_classification (stderr : String) :
    classifyDiagnosticText stderr = true ↔
      ((∃ ind ∈ errorIndicators,
          strContains (lowerStr stderr) (lowerStr ind) = true)
        ∧ strContains stderr "Cloning into" = false
        ∧ strContains stderr "remote:" = false) := by
  constructor
  · intro h
    unfold classifyDiagnosticText at h
    simp only [Bool.and_eq_true, Bool.not_eq_true', decide_eq_false_iff_not,
      List.any_eq_true] at h
    obtain ⟨⟨⟨hne, hc⟩, hr⟩, ind, hmem, hcont⟩ := h
    exact ⟨⟨ind, hmem, hcont⟩, hc, hr⟩
  · rintro ⟨⟨ind, hmem, hcont⟩, hc, hr⟩
    have hne : ¬(stderr = "") := by
      intro hs
      subst hs
      simp [errorIndicators] at hmem
      rcases hmem with h1 | h1 | h1 | h1 <;> subst h1 <;>
        exact absurd hcont (by decide)
    unfold classifyDiagnosticText
    simp only [Bool.and_eq_true, Bool.not_eq_true', decide_eq_false_iff_not,
      List.any_eq_true]
    exact ⟨⟨⟨hne, hc⟩, hr⟩, ind, hmem, hcont⟩

/-! ### C7: cache-path resolution is deterministic and idempotent -/

/-- C7: the resolved cache path is the pure function `targetDirOf` of the
identity and the degraded flag; re-running resolution on the filesystem the
first run produced returns the identical path, leaves the filesystem
unchanged, and creates no directory (so nothing can fail the second time). -/
theorem C7_resolve_deterministic (e : Env) (d : Bool) (o n : String)
    (fs : List String) :
    (resolveCachePath e d o n fs).1 = targetDirOf e d o n
  ∧ (resolveCachePath e d o n ((resolveCachePath e d o n fs).2.1)).1
      = (resolveCachePath e d o n fs).1
  ∧ (resolveCachePath e d o n ((resolveCachePath e d o n fs).2.1)).2.1
      = (resolveCachePath e d o n fs).2.1
  ∧ ((resolveCachePath e d o n ((resolveCachePath e d o n fs).2.1)).2.2).all
      (fun eff => !eff.isMkdir) = true := by
  have key : resolveCachePath e d o n ((resolveCachePath e d o n fs).2.1)
      = (targetDirOf e d o n, (resolveCachePath e d o n fs).2.1,
         if d then [Effect.existsCheck (bugsmithDirOf e d),
                    Effect.existsCheck (targetDirOf e d o n)]
         else [Effect.existsCheck (bugsmithDirOf e d)]) := by
    cases d with
    | false =>
        have hb1 : bugsmithDirOf e false ∈ (ensureDir (bugsmithDirOf e false) fs).1 :=
          ensureDir_mem_self _ _
        simp [resolveCachePath, ensureDir_of_mem _ _ hb1]
    | true =>
        have hb1 : bugsmithDirOf e true ∈ (ensureDir (bugsmithDirOf e true) fs).1 :=
          ensureDir_mem_self _ _
        have ht1 : targetDirOf e true o n
            ∈ (ensureDir (targetDirOf e true o n) (ensureDir (bugsmithDirOf e true) fs).1).1 :=
          ensureDir_mem_self _ _
        have hb2 : bugsmithDirOf e true
            ∈ (ensureDir (targetDirOf e true o n) (ensureDir (bugsmithDirOf e true) fs).1).1 :=
          ensureDir_mem_of _ _ _ hb1
        simp [resolveCachePath, ensureDir_of_mem _ _ hb2, ensureDir_of_mem _ _ ht1]
  refine ⟨resolve_fst e d o n fs, ?_, ?_, ?_⟩
  · rw [key, resolve_fst]
  · rw [key]
  · rw [key]
    cases d <;> rfl

/-! ### C2: the environment classifier -/

/-- C2: degraded is declared exactly when some environment-variable heuristic
holds or the version-query probe fails; the probe is spawned exactly when no
heuristic holds; the probe invocation carries a bounded buffer and a timeout
of at most 2000 ms; and the classifier is a total function, so a probe failure
is absorbed rather than propagated. -/
theorem C2_environment_classifier (e : Env) (p : ExecOutcome) :
    ((classify e p).1 = (isServerlessEnv e || p.isFail))
  ∧ ((classify e p).2.countP Effect.isExec
      = if isServerlessEnv e then 0 else 1)
  ∧ (∀ cmd opts, Effect.exec cmd opts ∈ (classify e p).2 →
      cmd = "git --version" ∧ opts.maxBuffer = some (1024 * 1024)
        ∧ ∃ ms, opts.timeout = some ms ∧ ms ≤ 2000) := by
  refine ⟨classify_fst e p, ?_, ?_⟩
  · cases hs : isServerlessEnv e <;> cases p <;>
      simp [classify, hs, List.countP_cons, Effect.isExec]
  · intro cmd opts hmem
    cases hs : isServerlessEnv e <;> cases p <;>
      simp [classify, hs] at hmem <;>
      rcases hmem with ⟨hcmd, hopts⟩ <;> subst hcmd <;> subst hopts <;>
      exact ⟨rfl, rfl, 2000, rfl, by decide⟩

/-- C2 witness: in an environment tripping no heuristic, a failing probe makes
the classifier report degraded, and the probe options are bounded. -/
theorem C2_environment_classifier_witness :
    (classify envReal (ExecOutcome.fail "spawn git ENOENT")).1 = true
  ∧ ("git --version" = "git --version"
      ∧ probeOptsClassify.maxBuffer = some (1024 * 1024)
      ∧ ∃ ms, probeOptsClassify.timeout = some ms ∧ ms ≤ 2000) := by
  have h := C2_environment_classifier envReal (ExecOutcome.fail "spawn git ENOENT")
  refine ⟨?_, h.2.2 "git --version" probeOptsClassify (by decide)⟩
  rw [h.1]
  decide

/-! ### More helpers: serverless branch, clone-command recognition -/

theorem acquireServerless_fst (e : Env) (fs : List String) (repo o n : String) :
    (acquireServerless e fs repo o n).1 = Except.ok (targetDirOf e true o n) := by
  simp [acquireServerless, resolve_fst]

theorem isCloneExec_version (opts : ExecOpts) :
    Effect.isCloneExec (Effect.exec "git --version" opts) = false := rfl

theorem isCloneExec_cloneCmd (o n target : String) (opts : ExecOpts) :
    Effect.isCloneExec (Effect.exec (cloneCmdOf o n target) opts) = true := by
  show strStartsWith (cloneCmdOf o n target) "git clone " = true
  unfold strStartsWith cloneCmdOf
  simp only [strdata_append, List.append_assoc]
  exact listIsPre_append_self _ _

theorem isCloneExec_pullCmd (target : String) (opts : ExecOpts) :
    Effect.isCloneExec (Effect.exec (pullCmdOf target) opts) = false := by
  show strStartsWith (pullCmdOf target) "git clone " = false
  unfold strStartsWith pullCmdOf
  simp only [strdata_append, List.append_assoc]
  rfl

theorem isCloneExec_existsCheckE (q : String) :
    Effect.isCloneExec (Effect.existsCheck q) = false := rfl

theorem isCloneExec_logMsgE (m : String) :
    Effect.isCloneExec (Effect.logMsg m) = false := rfl

theorem countP_clone_classify (e : Env) (p : ExecOutcome) :
    ((classify e p).2).countP Effect.isCloneExec = 0 :=
  countP_eq_zero_of_all_not _ _
    (classify_all _ (by rw [isCloneExec_version]; rfl) (fun m => rfl) e p)

theorem countP_clone_resolve (e : Env) (d : Bool) (o n : String)
    (fs : List String) :
    ((resolveCachePath e d o n fs).2.2).countP Effect.isCloneExec = 0 :=
  countP_eq_zero_of_all_not _ _
    (resolve_all _ (fun q => rfl) (fun q => rfl) e d o n fs)

theorem classify_false_of (e : Env) (p : ExecOutcome)
    (hsls : isServerlessEnv e = false) (hprobe : p.isFail = false) :
    (classify e p).1 = false := by
  simp [classify_fst, hsls, hprobe]

/-! ### C1: degraded acquisition -/

/-- C1: once the identity parses and the environment is classified degraded,
the call succeeds with the cache path, the marker file `.bugsmith-serverless`
holding exactly the serverless JSON body is written inside it, and — beyond
the classification prefix of the trace — no process is ever spawned. -/
theorem C1_degraded_acquisition (repo o n : String) (e : Env) (w : World)
    (hp : parseIdentity repo = some (o, n))
    (hdeg : (classify e w.probeClassify).1 = true)
    (hesc : jsonEscape repo = repo) :
    (cloneRepo repo e w).1 = Except.ok (targetDirOf e true o n)
  ∧ Effect.writeFile (joinP e (targetDirOf e true o n) ".bugsmith-serverless")
      ("\x7b\"repo\":\"" ++ repo ++ "\",\"cloned\":false,\"serverless\":true\x7d")
      ∈ (cloneRepo repo e w).2
  ∧ (((cloneRepo repo e w).2.drop (classify e w.probeClassify).2.length).all
      (fun eff => !eff.isExec)) = true := by
  have hbody := body_of_degraded repo o n e w hp hdeg
  have hok : (cloneRepoBody repo e w).1 = Except.ok (targetDirOf e true o n) := by
    rw [hbody]
    exact acquireServerless_fst e w.fs repo o n
  have hcr := cloneRepo_of_ok repo _ e w hok
  rw [hcr, hbody]
  refine ⟨rfl, ?_, ?_⟩
  · simp [acquireServerless, resolve_fst, serverlessMarkerBody, hesc]
  · show (((classify e w.probeClassify).2
        ++ (acquireServerless e w.fs repo o n).2).drop
          (classify e w.probeClassify).2.length).all (fun eff => !eff.isExec) = true
    rw [List.drop_left]
    exact acquireServerless_all _ (fun q => rfl) (fun q => rfl)
      (fun q c => rfl) (fun m => rfl) e w.fs repo o n

/-- C1 witness: the serverless example from the spec, evaluated concretely. -/
theorem C1_degraded_acquisition_witness :
    parseIdentity "octocat/Hello-World" = some ("octocat", "Hello-World")
  ∧ (cloneRepo "octocat/Hello-World" envSls wHappy).1
      = Except.ok (targetDirOf envSls true "octocat" "Hello-World")
  ∧ Effect.writeFile
      (joinP envSls (targetDirOf envSls true "octocat" "Hello-World")
        ".bugsmith-serverless")
      ("\x7b\"repo\":\"" ++ "octocat/Hello-World"
        ++ "\",\"cloned\":false,\"serverless\":true\x7d")
      ∈ (cloneRepo "octocat/Hello-World" envSls wHappy).2 := by
  have h := C1_degraded_acquisition "octocat/Hello-World" "octocat" "Hello-World"
    envSls wHappy (by decide) (by decide) (by decide)
  exact ⟨by decide, h.1, h.2.1⟩

/-! ### C10: uniform error wrapping -/

/-- C10: every error the caller sees is the single generic wrapping of the
internal cause: its message is `wrapMsg` of the cause raised inside the body,
equals the prefix `Failed to clone repository <id>: ` followed by the cause's
message whenever that message is non-empty, and always begins with that
prefix. -/
theorem C10_error_wrapping (repo : String) (e : Env) (w : World) :
    ∀ m, (cloneRepo repo e w).1 = Except.error m →
      ∃ cause, (cloneRepoBody repo e w).1 = Except.error cause
        ∧ m = wrapMsg repo cause
        ∧ (cause ≠ "" →
            m = "Failed to clone repository " ++ repo ++ ": " ++ cause)
        ∧ strStartsWith m ("Failed to clone repository " ++ repo ++ ": ") = true := by
  intro m h
  obtain ⟨cause, hc, hm⟩ := cloneRepo_error_inv repo m e w h
  refine ⟨cause, hc, hm, ?_, ?_⟩
  · intro hne
    rw [hm]
    unfold wrapMsg
    rw [if_neg hne]
  · rw [hm]
    unfold wrapMsg strStartsWith
    rw [strdata_append]
    exact listIsPre_append_self _ _

/-- C10 witness: a malformed identifier produces exactly the wrapped message. -/
theorem C10_error_wrapping_witness :
    (cloneRepo "nope" envSls wHappy).1 =
      Except.error "Failed to clone repository nope: Invalid repository format: nope. Expected format: owner/repo"
  ∧ ∃ cause, (cloneRepoBody "nope" envSls wHappy).1 = Except.error cause
      ∧ "Failed to clone repository nope: Invalid repository format: nope. Expected format: owner/repo"
          = wrapMsg "nope" cause := by
  refine ⟨by decide, ?_⟩
  obtain ⟨c, hc, hm, _, _⟩ := C10_error_wrapping "nope" envSls wHappy
    "Failed to clone repository nope: Invalid repository format: nope. Expected format: owner/repo"
    (by decide)
  exact ⟨c, hc, hm⟩

/-! ### C5: fresh clone and the fatal-diagnostic rule -/

/-- C5 counterexample: in non-degraded mode with no prior checkout, a clone
whose stderr contains `fatal:` does NOT fail the call when the stderr also
contains the progress marker `remote:` — the call resolves with the cache
path, refuting the unconditional claim. -/
theorem C5_counterexample :
    isServerlessEnv envReal = false
  ∧ (classify envReal wFatalRemote.probeClassify).1 = false
  ∧ wFatalRemote.fs = []
  ∧ wFatalRemote.clone = ExecOutcome.ok "" "remote: fatal: could not read"
  ∧ strContains "remote: fatal: could not read" "fatal:" = true
  ∧ (cloneRepo "octocat/Hello-World" envReal wFatalRemote).1
      = Except.ok "/tmp/bugsmith/octocat-Hello-World" := by
  decide

/-- C5 (amended): in non-degraded mode with no prior checkout, the clone
operation is invoked exactly once on success; and every executed clone whose
diagnostic output contains `fatal:` while containing neither progress marker
(`Cloning into`, `remote:`) fails the call with the wrapped acquisition
error. -/
theorem C5_fresh_clone (repo o n : String) (e : Env) (w : World)
    (hp : parseIdentity repo = some (o, n))
    (hsls : isServerlessEnv e = false)
    (hprobe : w.probeClassify.isFail = false)
    (hnogit : joinP e (targetDirOf e false o n) ".git"
        ∉ (resolveCachePath e false o n w.fs).2.1) :
    ((cloneRepo repo e w).1.isOk = true →
        (cloneRepo repo e w).2.countP Effect.isCloneExec = 1)
  ∧ (∀ a b s stderr, w.probeClone = ExecOutcome.ok a b →
      w.clone = ExecOutcome.ok s stderr →
      strContains stderr "fatal:" = true →
      strContains stderr "Cloning into" = false →
      strContains stderr "remote:" = false →
      (cloneRepo repo e w).1 =
        Except.error (wrapMsg repo
          (transformCloneErr ("Git clone error: " ++ stderr)))) := by
  have hdeg := classify_false_of e w.probeClassify hsls hprobe
  have hbody := body_of_real repo o n e w hp hdeg
  have har := acquireReal_nogit e w repo o n hnogit
  constructor
  · intro hok
    cases hpc : w.probeClone with
    | fail msg =>
        have hca := cloneAttempt_probe_fail w repo o n
          (targetDirOf e false o n) msg
          ((resolveCachePath e false o n w.fs).2.2 ++ [Effect.existsCheck (joinP e (targetDirOf e false o n) ".git")]) hpc
        have hbE : (cloneRepoBody repo e w).1
            = Except.error (transformCloneErr gitMissingMsg) := by
          simp [hbody, har, hca]
        rw [cloneRepo_of_error repo _ e w hbE] at hok
        simp [Except.isOk, Except.toBool] at hok
    | ok a b =>
        cases hcl : w.clone with
        | fail m =>
            have hca := cloneAttempt_clone_fail w repo o n
              (targetDirOf e false o n) a b m
              ((resolveCachePath e false o n w.fs).2.2 ++ [Effect.existsCheck (joinP e (targetDirOf e false o n) ".git")]) hpc hcl
            have hbE : (cloneRepoBody repo e w).1
                = Except.error (transformCloneErr m) := by
              simp [hbody, har, hca]
            rw [cloneRepo_of_error repo _ e w hbE] at hok
            simp [Except.isOk, Except.toBool] at hok
        | ok s stderr =>
            cases hdg : classifyDiagnosticText stderr with
            | true =>
                have hca := cloneAttempt_diag_bad w repo o n
                  (targetDirOf e false o n) a b s stderr
                  ((resolveCachePath e false o n w.fs).2.2 ++ [Effect.existsCheck (joinP e (targetDirOf e false o n) ".git")]) hpc hcl hdg
                have hbE : (cloneRepoBody repo e w).1
                    = Except.error
                        (transformCloneErr ("Git clone error: " ++ stderr)) := by
                  simp [hbody, har, hca]
                rw [cloneRepo_of_error repo _ e w hbE] at hok
                simp [Except.isOk, Except.toBool] at hok
            | false =>
                have hca := cloneAttempt_diag_good w repo o n
                  (targetDirOf e false o n) a b s stderr
                  ((resolveCachePath e false o n w.fs).2.2 ++ [Effect.existsCheck (joinP e (targetDirOf e false o n) ".git")]) hpc hcl hdg
                have hbO : (cloneRepoBody repo e w).1
                    = Except.ok (targetDirOf e false o n) := by
                  simp [hbody, har, hca]
                rw [cloneRepo_of_ok repo _ e w hbO, hbody, har, hca]
                show ((classify e w.probeClassify).2
                    ++ (((resolveCachePath e false o n w.fs).2.2
                      ++ [Effect.existsCheck (joinP e (targetDirOf e false o n) ".git")])
                      ++ [Effect.exec "git --version" probeOptsClone,
                          Effect.exec (cloneCmdOf o n (targetDirOf e false o n)) cloneOpts,
                          Effect.logMsg ("Successfully cloned repository " ++ repo
                            ++ " to " ++ targetDirOf e false o n)])).countP
                    Effect.isCloneExec = 1
                simp [List.countP_append, List.countP_cons,
                  countP_clone_classify, countP_clone_resolve,
                  isCloneExec_version, isCloneExec_cloneCmd,
                  isCloneExec_existsCheckE, isCloneExec_logMsgE]
  · intro a b s stderr hpc hcl hf hc hr
    have hbad : classifyDiagnosticText stderr = true := by
      have hne : ¬(stderr = "") := by
        intro hs
        subst hs
        exact absurd hf (by decide)
      have hlow : strContains (lowerStr stderr) (lowerStr "fatal:") = true :=
        strContains_lower stderr "fatal:" (by decide) hf
      unfold classifyDiagnosticText
      simp only [Bool.and_eq_true, Bool.not_eq_true', decide_eq_false_iff_not,
        List.any_eq_true]
      exact ⟨⟨⟨hne, hc⟩, hr⟩, "fatal:", by decide, hlow⟩
    have hca := cloneAttempt_diag_bad w repo o n
      (targetDirOf e false o n) a b s stderr
      ((resolveCachePath e false o n w.fs).2.2 ++ [Effect.existsCheck (joinP e (targetDirOf e false o n) ".git")]) hpc hcl hbad
    have hbE : (cloneRepoBody repo e w).1
        = Except.error (transformCloneErr ("Git clone error: " ++ stderr)) := by
      simp [hbody, har, hca]
    rw [cloneRepo_of_error repo _ e w hbE]

/-- C5 witness: a bare `fatal:` diagnostic on a fresh clone fails the call
with the wrapped acquisition error. -/
theorem C5_fresh_clone_witness :
    (cloneRepo "octocat/Hello-World" envReal wFatalClean).1 =
      Except.error (wrapMsg "octocat/Hello-World"
        (transformCloneErr ("Git clone error: " ++ "fatal: unable to access the remote"))) := by
  exact (C5_fresh_clone "octocat/Hello-World" "octocat" "Hello-World" envReal
      wFatalClean (by decide) (by decide) (by decide) (by decide)).2
    "" "" "" "fatal: unable to access the remote" (by decide) (by decide)
    (by decide) (by decide) (by decide)

/-! ### Helpers for the fallback and probe-failure claims -/

theorem cloneAttempt_trace (w : World) (repo o n target : String)
    (t : List Effect) :
    ∃ rest, (cloneAttempt w repo o n target t).2
      = t ++ (Effect.exec "git --version" probeOptsClone :: rest) := by
  unfold cloneAttempt
  split
  · exact ⟨[], rfl⟩
  · split
    · exact ⟨[Effect.exec (cloneCmdOf o n target) cloneOpts], rfl⟩
    · split
      · exact ⟨[Effect.exec (cloneCmdOf o n target) cloneOpts], rfl⟩
      · exact ⟨[Effect.exec (cloneCmdOf o n target) cloneOpts,
          Effect.logMsg ("Successfully cloned repository " ++ repo
            ++ " to " ++ target)], rfl⟩

theorem cloneAttempt_clone_mem (w : World) (repo o n target : String)
    (t : List Effect) (a b : String) (hpc : w.probeClone = ExecOutcome.ok a b) :
    Effect.exec (cloneCmdOf o n target) cloneOpts
      ∈ (cloneAttempt w repo o n target t).2 := by
  unfold cloneAttempt
  simp only [hpc]
  split
  · simp
  · split <;> simp

theorem cloneAttempt_fst_eq (w w' : World) (repo o n target : String)
    (t t' : List Effect) (h1 : w.probeClone = w'.probeClone)
    (h2 : w.clone = w'.clone) :
    (cloneAttempt w repo o n target t).1
      = (cloneAttempt w' repo o n target t').1 := by
  unfold cloneAttempt
  rw [h1, h2]
  split
  · rfl
  · split
    · rfl
    · split <;> rfl

theorem cloneRepo_trace_extends (repo : String) (e : Env) (w : World) :
    ∃ rest, (cloneRepo repo e w).2 = (cloneRepoBody repo e w).2 ++ rest := by
  unfold cloneRepo
  cases hb : cloneRepoBody repo e w with
  | mk res t =>
      cases res with
      | error m =>
          exact ⟨[Effect.logMsg ("Error cloning repository " ++ repo ++ ": " ++ m)], rfl⟩
      | ok p => exact ⟨[], by simp⟩

theorem mem_cloneRepo_of_body (repo : String) (e : Env) (w : World)
    (eff : Effect) (h : eff ∈ (cloneRepoBody repo e w).2) :
    eff ∈ (cloneRepo repo e w).2 := by
  obtain ⟨rest, hr⟩ := cloneRepo_trace_extends repo e w
  rw [hr]
  exact List.mem_append_left _ h

theorem cloneRepo_fst_eq_of_body (repo : String) (e : Env) (w w' : World)
    (h : (cloneRepoBody repo e w).1 = (cloneRepoBody repo e w').1) :
    (cloneRepo repo e w).1 = (cloneRepo repo e w').1 := by
  unfold cloneRepo
  cases hb : cloneRepoBody repo e w with
  | mk res t =>
      cases hb' : cloneRepoBody repo e w' with
      | mk res' t' =>
          rw [hb, hb'] at h
          simp at h
          subst h
          cases res <;> rfl

theorem cloneRepo_no_remove (repo : String) (e : Env) (w : World) :
    (cloneRepo repo e w).2.countP Effect.isRemove = 0 := by
  rw [List.countP_eq_zero]
  intro a ha hr
  have hwf := cloneRepo_wf_mem repo e w a ha
  cases a <;> simp [Effect.isRemove] at hr <;> simp [effWellFormed] at hwf

theorem probeFail_attempt (w : World) (repo o n target msg : String)
    (t : List Effect) (hpc : w.probeClone = ExecOutcome.fail msg)
    (ht : t.countP Effect.isCloneExec = 0) :
    (cloneAttempt w repo o n target t).1 = Except.error gitMissingMsg
  ∧ (cloneAttempt w repo o n target t).2.countP Effect.isCloneExec = 0
  ∧ Effect.exec "git --version" probeOptsClone
      ∈ (cloneAttempt w repo o n target t).2 := by
  have hca := cloneAttempt_probe_fail w repo o n target msg t hpc
  rw [hca]
  refine ⟨by rw [transform_gitMissing], ?_, ?_⟩
  · simp [List.countP_append, List.countP_cons, ht, isCloneExec_version]
  · exact List.mem_append_right _ (by simp)

/-! ### C6: pull failure falls through to a clone, never deletes, never surfaces -/

/-- C6: with a prior checkout whose pull fails, the trace shows the pull, the
pre-clone probe, and (when the probe resolves) a clone into the same cache
path; no directory deletion ever occurs; the pull failure is logged; and the
caller-visible result is independent of the pull failure's message, so the
pull failure itself is never surfaced. -/
theorem C6_update_fallback (repo o n pmsg : String) (e : Env) (w : World)
    (hp : parseIdentity repo = some (o, n))
    (hsls : isServerlessEnv e = false)
    (hprobe : w.probeClassify.isFail = false)
    (hgit : joinP e (targetDirOf e false o n) ".git"
        ∈ (resolveCachePath e false o n w.fs).2.1)
    (hpull : w.pull = ExecOutcome.fail pmsg) :
    Effect.exec (pullCmdOf (targetDirOf e false o n)) pullOpts
      ∈ (cloneRepo repo e w).2
  ∧ Effect.exec "git --version" probeOptsClone ∈ (cloneRepo repo e w).2
  ∧ (∀ a b, w.probeClone = ExecOutcome.ok a b →
      Effect.exec (cloneCmdOf o n (targetDirOf e false o n)) cloneOpts
        ∈ (cloneRepo repo e w).2)
  ∧ (cloneRepo repo e w).2.countP Effect.isRemove = 0
  ∧ Effect.logMsg ("Failed to update repository, will re-clone: " ++ pmsg)
      ∈ (cloneRepo repo e w).2
  ∧ (∀ m2, (cloneRepo repo e
        ⟨w.fs, w.probeClassify, ExecOutcome.fail m2, w.probeClone, w.clone⟩).1
      = (cloneRepo repo e w).1) := by
  have hdeg := classify_false_of e w.probeClassify hsls hprobe
  have hbody := body_of_real repo o n e w hp hdeg
  have har := acquireReal_pullfail e w repo o n pmsg hgit hpull
  have hbt : (cloneRepoBody repo e w).2
      = (classify e w.probeClassify).2
        ++ (cloneAttempt w repo o n (targetDirOf e false o n)
              ((resolveCachePath e false o n w.fs).2.2
                ++ [Effect.existsCheck (joinP e (targetDirOf e false o n) ".git"),
                    Effect.exec (pullCmdOf (targetDirOf e false o n)) pullOpts,
                    Effect.logMsg ("Failed to update repository, will re-clone: " ++ pmsg)])).2 := by
    rw [hbody, har]
  have hmem : ∀ eff : Effect,
      eff ∈ (cloneAttempt w repo o n (targetDirOf e false o n)
        ((resolveCachePath e false o n w.fs).2.2
          ++ [Effect.existsCheck (joinP e (targetDirOf e false o n) ".git"),
              Effect.exec (pullCmdOf (targetDirOf e false o n)) pullOpts,
              Effect.logMsg ("Failed to update repository, will re-clone: " ++ pmsg)])).2 →
      eff ∈ (cloneRepo repo e w).2 := by
    intro eff he
    apply mem_cloneRepo_of_body
    rw [hbt]
    exact List.mem_append_right _ he
  obtain ⟨rest, hrest⟩ := cloneAttempt_trace w repo o n (targetDirOf e false o n)
    ((resolveCachePath e false o n w.fs).2.2
      ++ [Effect.existsCheck (joinP e (targetDirOf e false o n) ".git"),
          Effect.exec (pullCmdOf (targetDirOf e false o n)) pullOpts,
          Effect.logMsg ("Failed to update repository, will re-clone: " ++ pmsg)])
  refine ⟨?_, ?_, ?_, cloneRepo_no_remove repo e w, ?_, ?_⟩
  · apply hmem
    rw [hrest]
    exact List.mem_append_left _ (List.mem_append_right _ (by simp))
  · apply hmem
    rw [hrest]
    exact List.mem_append_right _ (List.mem_cons_self _ _)
  · intro a b hpc
    exact hmem _ (cloneAttempt_clone_mem w repo o n (targetDirOf e false o n)
      ((resolveCachePath e false o n w.fs).2.2
        ++ [Effect.existsCheck (joinP e (targetDirOf e false o n) ".git"),
            Effect.exec (pullCmdOf (targetDirOf e false o n)) pullOpts,
            Effect.logMsg ("Failed to update repository, will re-clone: " ++ pmsg)])
      a b hpc)
  · apply hmem
    rw [hrest]
    exact List.mem_append_left _ (List.mem_append_right _ (by simp))
  · intro m2
    apply cloneRepo_fst_eq_of_body
    have hbody2 := body_of_real repo o n e
      ⟨w.fs, w.probeClassify, ExecOutcome.fail m2, w.probeClone, w.clone⟩ hp hdeg
    have har2 := acquireReal_pullfail e
      ⟨w.fs, w.probeClassify, ExecOutcome.fail m2, w.probeClone, w.clone⟩
      repo o n m2 hgit rfl
    rw [hbody2, hbody]
    show (acquireReal e ⟨w.fs, w.probeClassify, ExecOutcome.fail m2, w.probeClone, w.clone⟩ repo o n).1
      = (acquireReal e w repo o n).1
    rw [har2, har]
    exact cloneAttempt_fst_eq _ _ repo o n _ _ _ rfl rfl

/-- C6 witness: concrete pull failure with an existing checkout — the pull
runs, nothing is deleted. -/
theorem C6_update_fallback_witness :
    Effect.exec (pullCmdOf (targetDirOf envReal false "octocat" "Hello-World")) pullOpts
      ∈ (cloneRepo "octocat/Hello-World" envReal wPullFail).2
  ∧ (cloneRepo "octocat/Hello-World" envReal wPullFail).2.countP Effect.isRemove = 0 := by
  have h := C6_update_fallback "octocat/Hello-World" "octocat" "Hello-World"
    "cannot fast-forward" envReal wPullFail (by decide) (by decide) (by decide)
    (by decide) (by decide)
  exact ⟨h.1, h.2.2.2.1⟩

/-! ### C8: pre-clone probe and tool unavailability -/

/-- C8: whenever a fresh clone would be attempted (no usable prior checkout
was updated) and the version-query probe rejects, the call fails with the
wrapped tool-unavailable error, whose message names the repository identifier
and embeds the cause text; the probe was spawned, and no clone was ever
invoked. -/
theorem C8_tool_unavailable (repo o n msg : String) (e : Env) (w : World)
    (hp : parseIdentity repo = some (o, n))
    (hsls : isServerlessEnv e = false)
    (hprobe : w.probeClassify.isFail = false)
    (hpc : w.probeClone = ExecOutcome.fail msg)
    (hnou : ¬(joinP e (targetDirOf e false o n) ".git"
        ∈ (resolveCachePath e false o n w.fs).2.1 ∧ w.pull.isFail = false)) :
    (cloneRepo repo e w).1 = Except.error (wrapMsg repo gitMissingMsg)
  ∧ strContains (wrapMsg repo gitMissingMsg) repo = true
  ∧ strContains (wrapMsg repo gitMissingMsg) gitMissingMsg = true
  ∧ (cloneRepo repo e w).2.countP Effect.isCloneExec = 0
  ∧ Effect.exec "git --version" probeOptsClone ∈ (cloneRepo repo e w).2 := by
  have hdeg := classify_false_of e w.probeClassify hsls hprobe
  have hbody := body_of_real repo o n e w hp hdeg
  have hmain : ∃ t, acquireReal e w repo o n = cloneAttempt w repo o n (targetDirOf e false o n) t
      ∧ t.countP Effect.isCloneExec = 0 := by
    by_cases hgit : joinP e (targetDirOf e false o n) ".git"
        ∈ (resolveCachePath e false o n w.fs).2.1
    · obtain ⟨m, hpl⟩ : ∃ m, w.pull = ExecOutcome.fail m := by
        cases hplc : w.pull with
        | ok a b => exact absurd ⟨hgit, by rw [hplc]; rfl⟩ hnou
        | fail m => exact ⟨m, rfl⟩
      refine ⟨_, acquireReal_pullfail e w repo o n m hgit hpl, ?_⟩
      simp [List.countP_append, List.countP_cons, countP_clone_resolve,
        isCloneExec_pullCmd, isCloneExec_existsCheckE, isCloneExec_logMsgE]
    · refine ⟨_, acquireReal_nogit e w repo o n hgit, ?_⟩
      simp [List.countP_append, List.countP_cons, countP_clone_resolve,
        isCloneExec_existsCheckE]
  obtain ⟨t, har, ht⟩ := hmain
  obtain ⟨hfst, hcnt, hpmem⟩ := probeFail_attempt w repo o n
    (targetDirOf e false o n) msg t hpc ht
  have hbE : (cloneRepoBody repo e w).1 = Except.error gitMissingMsg := by
    rw [hbody]
    show (acquireReal e w repo o n).1 = Except.error gitMissingMsg
    rw [har]
    exact hfst
  have hcr := cloneRepo_of_error repo gitMissingMsg e w hbE
  refine ⟨?_, ?_, ?_, ?_, ?_⟩
  · rw [hcr]
  · unfold wrapMsg
    rw [if_neg (show ¬(gitMissingMsg = "") from by decide)]
    rw [strAppend_assoc ("Failed to clone repository " ++ repo) ": " gitMissingMsg]
    exact strContains_sandwich "Failed to clone repository " repo
      (": " ++ gitMissingMsg)
  · unfold wrapMsg
    rw [if_neg (show ¬(gitMissingMsg = "") from by decide)]
    exact strContains_suffix ("Failed to clone repository " ++ repo ++ ": ")
      gitMissingMsg
  · rw [hcr]
    show ((cloneRepoBody repo e w).2
      ++ [Effect.logMsg ("Error cloning repository " ++ repo ++ ": " ++ gitMissingMsg)]).countP
        Effect.isCloneExec = 0
    rw [hbody]
    show (((classify e w.probeClassify).2 ++ (acquireReal e w repo o n).2)
      ++ [Effect.logMsg ("Error cloning repository " ++ repo ++ ": " ++ gitMissingMsg)]).countP
        Effect.isCloneExec = 0
    rw [har]
    simp [List.countP_append, List.countP_cons, countP_clone_classify,
      hcnt, isCloneExec_logMsgE]
  · apply mem_cloneRepo_of_body
    rw [hbody]
    show Effect.exec "git --version" probeOptsClone
      ∈ (classify e w.probeClassify).2 ++ (acquireReal e w repo o n).2
    rw [har]
    exact List.mem_append_right _ hpmem

/-- C8 witness: the probe rejection on a fresh clone produces exactly the
wrapped tool-unavailable message naming the identifier. -/
theorem C8_tool_unavailable_witness :
    (cloneRepo "octocat/Hello-World" envReal wNoGit).1
      = Except.error (wrapMsg "octocat/Hello-World" gitMissingMsg)
  ∧ strContains (wrapMsg "octocat/Hello-World" gitMissingMsg)
      "octocat/Hello-World" = true := by
  have h := C8_tool_unavailable "octocat/Hello-World" "octocat" "Hello-World"
    "spawn git ENOENT" envReal wNoGit (by decide) (by decide) (by decide)
    (by decide) (by decide)
  exact ⟨h.1, h.2.1⟩

/-! ### C9: timeouts and buffers on process invocations -/

/-- True when a process invocation's output buffer is bounded (at most the
10 MiB used for clones); vacuously true for non-process effects. -/
def execBufferBounded : Effect → Bool
  | Effect.exec _ o =>
      match o.maxBuffer with
      | some b => decide (b ≤ 10 * 1024 * 1024)
      | none => false
  | _ => true

/-- True when a process invocation either is the classifier probe (the only
one with a timeout) or carries no timeout; vacuously true otherwise. -/
def execTimeoutOnlyClassify : Effect → Bool
  | Effect.exec _ o => decide (o = probeOptsClassify) || decide (o.timeout = none)
  | _ => true

/-- C9 counterexample: the clone and pull invocations are recorded with
option records carrying no timeout at all, refuting the claim that every
invocation carries an explicit timeout. -/
theorem C9_counterexample :
    Effect.exec (cloneCmdOf "octocat" "Hello-World" "/tmp/bugsmith/octocat-Hello-World")
        cloneOpts
      ∈ (cloneRepo "octocat/Hello-World" envReal wHappy).2
  ∧ cloneOpts.timeout = none
  ∧ Effect.exec (pullCmdOf "/tmp/bugsmith/octocat-Hello-World") pullOpts
      ∈ (cloneRepo "octocat/Hello-World" envReal wPullFail).2
  ∧ pullOpts.timeout = none
  ∧ probeOptsClone.timeout = none := by
  decide

/-- C9 (amended): every recorded process invocation carries a bounded output
buffer (at most 10 MiB), but only the environment-classifier probe carries an
explicit timeout (2000 ms); the pull, pre-clone probe, and clone invocations
specify no timeout. -/
theorem C9_process_bounds (repo : String) (e : Env) (w : World) :
    ((cloneRepo repo e w).2.all execBufferBounded = true)
  ∧ ((cloneRepo repo e w).2.all execTimeoutOnlyClassify = true)
  ∧ probeOptsClassify.timeout = some 2000
  ∧ pullOpts.timeout = none
  ∧ probeOptsClone.timeout = none
  ∧ cloneOpts.timeout = none := by
  refine ⟨?_, ?_, rfl, rfl, rfl, rfl⟩
  · have h := cloneRepo_all_wf repo e w
    rw [List.all_eq_true] at h ⊢
    intro a ha
    have hwf := h a ha
    cases a with
    | exec c o2 =>
        simp only [effWellFormed, decide_eq_true_eq] at hwf
        rcases hwf with h1 | h1 | h1 | h1 <;> subst h1 <;> rfl
    | removeDir q => simp [effWellFormed] at hwf
    | existsCheck q => rfl
    | mkdir q => rfl
    | writeFile q c2 => rfl
    | logMsg m => rfl
  · have h := cloneRepo_all_wf repo e w
    rw [List.all_eq_true] at h ⊢
    intro a ha
    have hwf := h a ha
    cases a with
    | exec c o2 =>
        simp only [effWellFormed, decide_eq_true_eq] at hwf
        rcases hwf with h1 | h1 | h1 | h1 <;> subst h1 <;> rfl
    | removeDir q => simp [effWellFormed] at hwf
    | existsCheck q => rfl
    | mkdir q => rfl
    | writeFile q c2 => rfl
    | logMsg m => rfl
